import Mathlib

/-!
Verification of the Deep Researcher front-end interaction layer.

A shallow embedding of `src/App.tsx` (the single UI component of the
repository).  The component's React state hooks become the fields of
`AppState`; each event handler is translated as a pure function; the
asynchronous network traffic (axios requests to `/research`, `/suggest`
and `/ingest`) is modelled by a `World` that carries the multiset of
in-flight requests, and a small-step transition function `stepEvent`
that either processes a user event or delivers the response (resolution
or rejection) of one pending request.  This matches the single-threaded,
event-driven execution model of the browser: every synchronous handler
prefix, and every promise continuation, runs atomically.
-/

set_option maxHeartbeats 1000000

namespace DeepResearcher

/-- A cited source inside a research report
(`App.tsx`, `interface ResearchResult`, `sources` entries). -/
structure Source where
  title : String
  content : String
  relevance_score : Rat
  deriving DecidableEq

/-- The nested `research_report` object of a `ResearchResult`. -/
structure ResearchReport where
  summary : String
  key_findings : List String
  confidence_score : Rat
  sources : List Source
  deriving DecidableEq

/-- `interface ResearchResult` from `App.tsx`.  JavaScript `number`
fields are modelled as exact rationals. -/
structure ResearchResult where
  success : Bool
  research_report : ResearchReport
  execution_time : Rat
  sources_found : Int
  reasoning_steps : Int
  deriving DecidableEq

/-- `interface SuggestionItem` from `App.tsx`. -/
structure SuggestionItem where
  suggested_query : String
  refinement_type : String
  rationale : String
  confidence : Rat
  expected_improvement : Rat
  deriving DecidableEq

/-- `interface Suggestion` from `App.tsx`: the `/suggest` response body. -/
structure Suggestion where
  success : Bool
  suggestions : List SuggestionItem
  deriving DecidableEq

/-- Body of a POST to `/research` (`App.tsx` line 58-61). -/
structure ResearchRequest where
  query : String
  max_sources : Nat
  deriving DecidableEq

/-- The React state of the `App` component: one field per `useState`
hook (`App.tsx` lines 39-46).  Uploaded files are kept by name, which is
the only attribute of a `File` the component ever reads. -/
structure AppState where
  query : String
  isLoading : Bool
  results : Option ResearchResult
  suggestions : List SuggestionItem
  showSuggestions : Bool
  uploadedFiles : List String
  isUploading : Bool
  uploadSuccess : Bool
  deriving DecidableEq

/-- Initial values of all `useState` hooks. -/
def initialState : AppState :=
  { query := ""
  , isLoading := false
  , results := none
  , suggestions := []
  , showSuggestions := false
  , uploadedFiles := []
  , isUploading := false
  , uploadSuccess := false }

/-- `String.prototype.trim`: drop leading and trailing whitespace.
(Defined by structural recursion on the character list so that concrete
executions reduce inside the kernel.) -/
def jsTrim (s : String) : String :=
  ⟨List.reverse (List.dropWhile Char.isWhitespace
    (List.reverse (List.dropWhile Char.isWhitespace s.data)))⟩

/-- Synchronous prefix of `handleSearch` (lines 49-56): the early return
on a whitespace-only query, the four state updates, and the issuing of
the `/research` request (returned as the second component; `none` means
no request was issued). -/
def handleSearch (s : AppState) (searchQuery : String) : AppState × Option ResearchRequest :=
  if jsTrim searchQuery = "" then (s, none)
  else
    ({ s with isLoading := true
            , results := none
            , suggestions := []
            , showSuggestions := false },
     some { query := searchQuery, max_sources := 10 })

/-- Continuation of `handleSearch` run when the `/research` promise
resolves (lines 63, 68): store the response body and clear the loading
flag (the `finally` block). -/
def researchThen (s : AppState) (data : ResearchResult) : AppState :=
  { s with results := some data, isLoading := false }

/-- Continuation of `handleSearch` run when the `/research` promise
rejects (lines 64-68): only the `finally` block changes state; the
`alert` is recorded at the `World` level. -/
def researchCatch (s : AppState) : AppState :=
  { s with isLoading := false }

/-- The blocking notice raised by a failed research request (line 66). -/
def researchErrMsg : String :=
  "Error conducting research. Make sure the backend is running on port 8000."

/-- Synchronous prefix of `getSuggestions` (lines 79-85): early return
for queries shorter than 3 characters, otherwise issue a `/suggest`
request carrying the query (no state is touched before the await). -/
def getSuggestions (s : AppState) (searchQuery : String) : AppState × Option String :=
  if searchQuery.length < 3 then (s, none) else (s, some searchQuery)

/-- Continuation of `getSuggestions` when the `/suggest` promise
resolves (lines 87-90): on `success` replace the suggestion list and
show the overlay, otherwise do nothing. -/
def suggestThen (s : AppState) (data : Suggestion) : AppState :=
  if data.success then
    { s with suggestions := data.suggestions, showSuggestions := true }
  else s

/-- `handleQueryChange` (lines 96-100): store the new text, then run the
prefix of `getSuggestions` on it. -/
def handleQueryChange (s : AppState) (value : String) : AppState × Option String :=
  getSuggestions { s with query := value } value

/-- `handleSuggestionClick` (lines 102-106): set the query to the
suggestion's text, hide the overlay, and call `handleSearch` on exactly
that text. -/
def handleSuggestionClick (s : AppState) (suggestion : SuggestionItem) :
    AppState × Option ResearchRequest :=
  handleSearch
    { s with query := suggestion.suggested_query, showSuggestions := false }
    suggestion.suggested_query

/-- `handleKeyPress` (lines 72-77): Enter without shift submits the
current query; anything else is left to the default behaviour. -/
def handleKeyPress (s : AppState) (key : String) (shiftKey : Bool) :
    AppState × Option ResearchRequest :=
  if key = "Enter" && !shiftKey then handleSearch s s.query else (s, none)

/-- Synchronous prefix of `handleFileUpload` (lines 108-117): early
return on a null/empty file list, set the uploading flag, clear the
success banner, and issue the `/ingest` request carrying the files. -/
def handleFileUpload (s : AppState) (files : List String) :
    AppState × Option (List String) :=
  if files = [] then (s, none)
  else ({ s with isUploading := true, uploadSuccess := false }, some files)

/-- Continuation of `handleFileUpload` when the `/ingest` promise
resolves (lines 126-130, 135): on `success` append the submitted files
and show the banner; the `finally` block clears `isUploading` in every
case.  Returns the state together with the number of banner timers
scheduled by `setTimeout`. -/
def ingestThen (s : AppState) (files : List String) (success : Bool) : AppState × Nat :=
  if success then
    ({ s with uploadedFiles := s.uploadedFiles ++ files
            , uploadSuccess := true
            , isUploading := false }, 1)
  else ({ s with isUploading := false }, 0)

/-- Continuation of `handleFileUpload` when the `/ingest` promise
rejects (lines 131-136): the alert is recorded at the `World` level and
the `finally` block clears `isUploading`. -/
def ingestCatch (s : AppState) : AppState :=
  { s with isUploading := false }

/-- The blocking notice raised by a failed upload (line 133). -/
def uploadErrMsg : String :=
  "Error uploading files. Make sure the backend is running."

/-! ## Export module (`exportReport`, lines 139-153)

`JSON.stringify` / `JSON.parse` are platform functions, not repository
code; they are modelled at the level of the JSON value they serialise
(the serialisation of our value type is injective, and numbers are
exact rationals, so string-level round-tripping coincides with
value-level round-tripping).  `Json` is a syntax tree of the document
that `JSON.stringify(results, null, 2)` prints. -/

/-- JSON documents (no `null` is ever produced by the component). -/
inductive Json where
  | str : String → Json
  | num : Rat → Json
  | bool : Bool → Json
  | arr : List Json → Json
  | obj : List (String × Json) → Json

/-- Field lookup in a JSON object. -/
def Json.getField : Json → String → Option Json
  | .obj fields, k => (fields.find? (fun p => p.1 == k)).map Prod.snd
  | _, _ => none

/-- Read a JSON string. -/
def Json.asStr : Json → Option String
  | .str s => some s
  | _ => none

/-- Read a JSON number. -/
def Json.asRat : Json → Option Rat
  | .num q => some q
  | _ => none

/-- Read a JSON number as an integer. -/
def Json.asInt : Json → Option Int
  | .num q => if q.den = 1 then some q.num else none
  | _ => none

/-- Read a JSON boolean. -/
def Json.asBool : Json → Option Bool
  | .bool b => some b
  | _ => none

/-- Read a JSON array. -/
def Json.asArr : Json → Option (List Json)
  | .arr a => some a
  | _ => none

/-- Serialisation of a `Source`, in the field order of the interface
declaration (which `JSON.stringify` preserves). -/
def sourceToJson (s : Source) : Json :=
  .obj [ ("title", .str s.title)
       , ("content", .str s.content)
       , ("relevance_score", .num s.relevance_score) ]

/-- Serialisation of a `ResearchReport`. -/
def reportToJson (r : ResearchReport) : Json :=
  .obj [ ("summary", .str r.summary)
       , ("key_findings", .arr (r.key_findings.map Json.str))
       , ("confidence_score", .num r.confidence_score)
       , ("sources", .arr (r.sources.map sourceToJson)) ]

/-- Serialisation of a `ResearchResult`: the document printed by
`JSON.stringify(results, null, 2)` in the `json` export branch. -/
def resultToJson (r : ResearchResult) : Json :=
  .obj [ ("success", .bool r.success)
       , ("research_report", reportToJson r.research_report)
       , ("execution_time", .num r.execution_time)
       , ("sources_found", .num (r.sources_found : Rat))
       , ("reasoning_steps", .num (r.reasoning_steps : Rat)) ]

/-- Parse a `Source` back from JSON. -/
def sourceFromJson (j : Json) : Option Source := do
  let title ← (← j.getField "title").asStr
  let content ← (← j.getField "content").asStr
  let relevance_score ← (← j.getField "relevance_score").asRat
  pure { title, content, relevance_score }

/-- Parse a `ResearchReport` back from JSON. -/
def reportFromJson (j : Json) : Option ResearchReport := do
  let summary ← (← j.getField "summary").asStr
  let key_findings ← (← (← j.getField "key_findings").asArr).mapM Json.asStr
  let confidence_score ← (← j.getField "confidence_score").asRat
  let sources ← (← (← j.getField "sources").asArr).mapM sourceFromJson
  pure { summary, key_findings, confidence_score, sources }

/-- Parse a `ResearchResult` back from JSON (what `JSON.parse` applied
to the exported `json` file recovers). -/
def resultFromJson (j : Json) : Option ResearchResult := do
  let success ← (← j.getField "success").asBool
  let research_report ← reportFromJson (← j.getField "research_report")
  let execution_time ← (← j.getField "execution_time").asRat
  let sources_found ← (← j.getField "sources_found").asInt
  let reasoning_steps ← (← j.getField "reasoning_steps").asInt
  pure { success, research_report, execution_time, sources_found, reasoning_steps }

/-- The three export formats (line 139). -/
inductive ExportFormat where
  | pdf
  | markdown
  | json
  deriving DecidableEq

/-- The literal format string interpolated into the download name. -/
def formatName : ExportFormat → String
  | .pdf => "pdf"
  | .markdown => "markdown"
  | .json => "json"

/-- Content of one exported download: either a JSON document (the
`json` branch) or plain text (the shared `markdown`/`pdf` branch). -/
inductive ExportContent where
  | jsonText : Json → ExportContent
  | plainText : String → ExportContent

/-- The template literal of the non-JSON export branch (line 144):
`Array.prototype.join('\n')` is `String.intercalate "\n"`. -/
def markdownText (results : ResearchResult) : String :=
  "# Research Report\n\n" ++ results.research_report.summary ++
    "\n\n## Key Findings\n" ++
    String.intercalate "\n"
      (results.research_report.key_findings.map (fun f => "- " ++ f))

/-- The `content` ternary of `exportReport` (lines 142-144). -/
def exportContent (format : ExportFormat) (results : ResearchResult) : ExportContent :=
  match format with
  | .json => .jsonText (resultToJson results)
  | _ => .plainText (markdownText results)

/-- `exportReport` (lines 139-153): `none` when no download is
triggered (the `if (!results) return` guard), otherwise the download's
file name and content. -/
def exportReport (s : AppState) (format : ExportFormat) :
    Option (String × ExportContent) :=
  match s.results with
  | none => none
  | some results =>
    some ("research-report." ++ formatName format, exportContent format results)

/-! ## Event-level transition system

The browser's event loop runs each synchronous handler prefix and each
promise continuation atomically; between them, responses of the
fire-and-forget requests may arrive in any order (no request carries a
generation token and none is ever cancelled).  `World` pairs the React
state with the lists of in-flight requests, the number of live
success-banner timers, and the log of `alert` notices raised so far.

The two `ghost…` fields are history observers used only to state
history-dependent invariants; they record whether a successful
`/suggest` (resp. `/research`) response has been delivered more
recently than the last actual submission.  No transition reads them. -/

/-- The whole system state: React state plus the network environment. -/
structure World where
  app : AppState
  pendingResearch : List ResearchRequest
  pendingSuggest : List String
  pendingUpload : List (List String)
  pendingTimers : Nat
  alerts : List String
  ghostSuggestOk : Bool
  ghostResearchOk : Bool
  deriving DecidableEq

/-- The initial world: fresh component, no traffic. -/
def initWorld : World :=
  { app := initialState
  , pendingResearch := []
  , pendingSuggest := []
  , pendingUpload := []
  , pendingTimers := 0
  , alerts := []
  , ghostSuggestOk := false
  , ghostResearchOk := false }

/-- Lift the result of a handler that may issue a `/research` request
to the world: when a request is issued, a submission has occurred, so
both ghost observers reset. -/
def submitWorld (w : World) : AppState × Option ResearchRequest → World
  | (s', none) => { w with app := s' }
  | (s', some req) =>
    { w with app := s'
           , pendingResearch := w.pendingResearch ++ [req]
           , ghostSuggestOk := false
           , ghostResearchOk := false }

/-- Every event the embedded system reacts to.  User events are guarded
exactly by the conditions under which the corresponding DOM control can
fire in the rendered tree (`disabled` flags, conditional rendering);
response events require a matching in-flight request, which they
consume.  `none` as a response payload models a rejected promise
(network error or non-2xx status). -/
inductive Event where
  | queryChange (value : String)
  | pressEnter (shiftKey : Bool)
  | clickSearch
  | clickSuggestion (i : Nat)
  | selectFiles (files : List String)
  | researchResponse (i : Nat) (resp : Option ResearchResult)
  | suggestResponse (i : Nat) (resp : Option Suggestion)
  | ingestResponse (i : Nat) (resp : Option Bool)
  | timerFire

/-- One atomic step of the event loop; `none` when the event is not
enabled in `w` (disabled control, or no such pending request). -/
def stepEvent (w : World) : Event → Option World
  | .queryChange value =>
    -- the textarea is disabled while loading (line 198)
    if w.app.isLoading then none
    else
      match handleQueryChange w.app value with
      | (s', none) => some { w with app := s' }
      | (s', some q) => some { w with app := s', pendingSuggest := w.pendingSuggest ++ [q] }
  | .pressEnter shiftKey =>
    -- key events only reach an enabled textarea (line 198)
    if w.app.isLoading then none
    else some (submitWorld w (handleKeyPress w.app "Enter" shiftKey))
  | .clickSearch =>
    -- the search button is disabled when loading or the trimmed query is empty (line 202)
    if w.app.isLoading || jsTrim w.app.query = "" then none
    else some (submitWorld w (handleSearch w.app w.app.query))
  | .clickSuggestion i =>
    -- a suggestion row exists only when the overlay is rendered (line 210)
    if w.app.showSuggestions = false then none
    else
      match w.app.suggestions[i]? with
      | none => none
      | some suggestion => some (submitWorld w (handleSuggestionClick w.app suggestion))
  | .selectFiles files =>
    -- the file input is reached through the upload button, disabled while uploading (line 168)
    if w.app.isUploading then none
    else
      match handleFileUpload w.app files with
      | (s', none) => some { w with app := s' }
      | (s', some req) => some { w with app := s', pendingUpload := w.pendingUpload ++ [req] }
  | .researchResponse i resp =>
    match w.pendingResearch[i]? with
    | none => none
    | some _ =>
      let pr := w.pendingResearch.eraseIdx i
      match resp with
      | some data =>
        some { w with app := researchThen w.app data
                    , pendingResearch := pr
                    , ghostResearchOk := true }
      | none =>
        some { w with app := researchCatch w.app
                    , pendingResearch := pr
                    , alerts := researchErrMsg :: w.alerts }
  | .suggestResponse i resp =>
    match w.pendingSuggest[i]? with
    | none => none
    | some _ =>
      let ps := w.pendingSuggest.eraseIdx i
      match resp with
      | some data =>
        some { w with app := suggestThen w.app data
                    , pendingSuggest := ps
                    , ghostSuggestOk := w.ghostSuggestOk || data.success }
      | none => some { w with pendingSuggest := ps }
  | .ingestResponse i resp =>
    match w.pendingUpload[i]? with
    | none => none
    | some files =>
      let pu := w.pendingUpload.eraseIdx i
      match resp with
      | some success =>
        let (s', timers) := ingestThen w.app files success
        some { w with app := s'
                    , pendingUpload := pu
                    , pendingTimers := w.pendingTimers + timers }
      | none =>
        some { w with app := ingestCatch w.app
                    , pendingUpload := pu
                    , alerts := uploadErrMsg :: w.alerts }
  | .timerFire =>
    match w.pendingTimers with
    | 0 => none
    | n + 1 => some { w with app := { w.app with uploadSuccess := false }, pendingTimers := n }

/-- Run a list of events from a world, failing if any event is not
enabled. -/
def run (w : World) : List Event → Option World
  | [] => some w
  | e :: es =>
    match stepEvent w e with
    | some w' => run w' es
    | none => none

/-- The states the system can actually be in. -/
inductive Reachable : World → Prop where
  | init : Reachable initWorld
  | step {w e w'} : Reachable w → stepEvent w e = some w' → Reachable w'

/-- The render conditions of the three exclusive panels
(lines 256, 264, 335). -/
def loadingShown (s : AppState) : Bool := s.isLoading

/-- Render condition of the results panel (line 264). -/
def resultsShown (s : AppState) : Bool := s.results.isSome

/-- Render condition of the welcome panel (line 335). -/
def welcomeShown (s : AppState) : Bool := !s.results.isSome && !s.isLoading

/-- The three exclusive panels of the main area. -/
inductive Panel where
  | loading
  | results
  | welcome
  deriving DecidableEq

/-- The panel selected by priority: loading first, then results, then
the welcome fallback. -/
def panelShown (s : AppState) : Panel :=
  if s.isLoading then .loading
  else if s.results.isSome then .results
  else .welcome

/-- The inductive invariant of the transition system. -/
@[reducible] def Inv (w : World) : Prop :=
  (w.app.isLoading = true → w.app.results = none) ∧
  (w.ghostSuggestOk = false → w.app.suggestions = [] ∧ w.app.showSuggestions = false) ∧
  (w.ghostResearchOk = false → w.app.results = none)

/-! ## Concrete data used by counterexample traces and witnesses -/

/-- A sample source. -/
def exSource : Source :=
  { title := "doc", content := "text", relevance_score := 1 }

/-- A sample report. -/
def exReport : ResearchReport :=
  { summary := "caching lowers latency"
  , key_findings := ["finding one", "finding two"]
  , confidence_score := 1
  , sources := [exSource] }

/-- A sample research response. -/
def exResult : ResearchResult :=
  { success := true
  , research_report := exReport
  , execution_time := 2
  , sources_found := 1
  , reasoning_steps := 3 }

/-- A sample suggestion with a submittable query. -/
def exItem : SuggestionItem :=
  { suggested_query := "better query"
  , refinement_type := "specificity"
  , rationale := "narrows metric"
  , confidence := 1
  , expected_improvement := 1 }

/-- A suggestion whose query trims to the empty string. -/
def wsItem : SuggestionItem :=
  { suggested_query := " "
  , refinement_type := "noise"
  , rationale := "r"
  , confidence := 1
  , expected_improvement := 1 }

/-- Trace for the C2 counterexample: the only successful suggestion
response carries an empty list (and the most recent response is a
network failure), yet the overlay flag ends up true. -/
def trC2 : List Event :=
  [ .queryChange "abc"
  , .suggestResponse 0 (some { success := true, suggestions := [] })
  , .queryChange "abcd"
  , .suggestResponse 0 none ]

/-- Final world of `trC2`. -/
def wC2 : World := (run initWorld trC2).getD initWorld

/-- Reachable world with the overlay shown (witness for C2). -/
def trC2W : List Event :=
  [ .queryChange "abc"
  , .suggestResponse 0 (some { success := true, suggestions := [exItem] }) ]

/-- Final world of `trC2W`. -/
def wC2W : World := (run initWorld trC2W).getD initWorld

/-- Trace for the C4 counterexample: a suggestion request issued by a
keystroke is still in flight when the query is submitted; its response
arrives during loading and repopulates the overlay, which the research
completion does not clear. -/
def trC4 : List Event :=
  [ .queryChange "abc"
  , .pressEnter false
  , .suggestResponse 0 (some { success := true, suggestions := [exItem] })
  , .researchResponse 0 (some exResult) ]

/-- Final world of `trC4`. -/
def wC4 : World := (run initWorld trC4).getD initWorld

/-- A submission with no interfering suggestion traffic (witness for
C4 and C5). -/
def trSubmit : List Event := [.queryChange "abc", .pressEnter false]

/-- Final world of `trSubmit`: one research request in flight. -/
def wSubmit : World := (run initWorld trSubmit).getD initWorld

/-- World after the pending research request of `wSubmit` resolves. -/
def wSubmitOk : World :=
  (stepEvent wSubmit (.researchResponse 0 (some exResult))).getD initWorld

/-- World after the pending research request of `wSubmit` rejects. -/
def wSubmitErr : World :=
  (stepEvent wSubmit (.researchResponse 0 none)).getD initWorld

/-- Trace for the C5 counterexample: while a research request is in
flight, a stale suggestion response shows the overlay; clicking a row
submits a second, overlapping research request.  The first request
resolves, the second rejects: the failure leaves the first result on
screen. -/
def trC5 : List Event :=
  [ .queryChange "abc"
  , .pressEnter false
  , .suggestResponse 0 (some { success := true, suggestions := [exItem] })
  , .clickSuggestion 0
  , .researchResponse 0 (some exResult)
  , .researchResponse 0 none ]

/-- Final world of `trC5`. -/
def wC5 : World := (run initWorld trC5).getD initWorld

/-- Trace for the C9 counterexample: the backend returns a suggestion
whose text trims to the empty string. -/
def trC9 : List Event :=
  [ .queryChange "abc"
  , .suggestResponse 0 (some { success := true, suggestions := [wsItem] })
  , .clickSuggestion 0 ]

/-- Final world of `trC9`. -/
def wC9 : World := (run initWorld trC9).getD initWorld

/-- World after clicking the (submittable) suggestion of `wC2W`
(witness for C9). -/
def wC9W : World := (stepEvent wC2W (.clickSuggestion 0)).getD initWorld

/-- A world with one upload in flight (witness for C10). -/
def wUp : World :=
  { initWorld with
      app := { initialState with isUploading := true }
    , pendingUpload := [["a.txt", "b.txt"]] }

/-- `wUp` after the ingest request resolves with `success=true`. -/
def wUpOk : World := (stepEvent wUp (.ingestResponse 0 (some true))).getD initWorld

/-- `wUp` after the ingest request rejects. -/
def wUpErr : World := (stepEvent wUp (.ingestResponse 0 none)).getD initWorld

/-- Replace the sources of a result, keeping every other field. -/
def setSources (r : ResearchResult) (sources : List Source) : ResearchResult :=
  { r with research_report := { r.research_report with sources := sources } }

/-! ## Invariant proofs -/

theorem inv_initWorld : Inv initWorld := by
  refine ⟨?_, ?_, ?_⟩ <;> intro h <;> simp [initWorld, initialState]

theorem handleKeyPress_enter (s : AppState) :
    handleKeyPress s "Enter" false = handleSearch s s.query := by
  simp [handleKeyPress]

theorem handleKeyPress_shift (s : AppState) :
    handleKeyPress s "Enter" true = (s, none) := by
  simp [handleKeyPress]

theorem inv_submitSearch (w : World) (s0 : AppState) (q : String)
    (hL : s0.isLoading = w.app.isLoading) (hR : s0.results = w.app.results)
    (hSug : s0.suggestions = w.app.suggestions)
    (hShow : s0.showSuggestions = true → w.app.showSuggestions = true)
    (hInv : Inv w) : Inv (submitWorld w (handleSearch s0 q)) := by
  obtain ⟨h1, h2, h3⟩ := hInv
  by_cases ht : jsTrim q = ""
  · simp only [handleSearch, if_pos ht, submitWorld]
    refine ⟨?_, ?_, ?_⟩
    · intro h; rw [show ({ w with app := s0 } : World).app.isLoading = s0.isLoading from rfl, hL] at h
      show s0.results = none
      rw [hR]; exact h1 h
    · intro h
      obtain ⟨ha, hb⟩ := h2 h
      refine ⟨by rw [show ({ w with app := s0 } : World).app.suggestions = s0.suggestions from rfl, hSug]; exact ha, ?_⟩
      show s0.showSuggestions = false
      cases hs : s0.showSuggestions
      · rfl
      · rw [hShow hs] at hb; exact hb
    · intro h
      show s0.results = none
      rw [hR]; exact h3 h
  · simp only [handleSearch, if_neg ht, submitWorld]
    exact ⟨fun _ => rfl, fun _ => ⟨rfl, rfl⟩, fun _ => rfl⟩

theorem inv_step {w : World} {e : Event} {w' : World}
    (hInv : Inv w) (hstep : stepEvent w e = some w') : Inv w' := by
  obtain ⟨h1, h2, h3⟩ := hInv
  cases e with
  | queryChange value =>
    simp only [stepEvent] at hstep
    by_cases hL : w.app.isLoading
    · simp [hL] at hstep
    · rw [if_neg hL] at hstep
      rcases hq : handleQueryChange w.app value with ⟨s', req⟩
      rw [hq] at hstep
      have hs' : s' = { w.app with query := value } := by
        have := congrArg Prod.fst hq
        simp only [handleQueryChange, getSuggestions] at this
        split at this <;> simpa using this.symm
      cases req <;> simp only [Option.some.injEq] at hstep <;> subst hstep <;> subst hs' <;>
        exact ⟨h1, h2, h3⟩
  | pressEnter shiftKey =>
    simp only [stepEvent] at hstep
    by_cases hL : w.app.isLoading
    · simp [hL] at hstep
    · rw [if_neg hL, Option.some.injEq] at hstep
      subst hstep
      cases shiftKey
      · rw [handleKeyPress_enter]
        exact inv_submitSearch w w.app w.app.query rfl rfl rfl (fun h => h) ⟨h1, h2, h3⟩
      · rw [handleKeyPress_shift]
        exact ⟨h1, h2, h3⟩
  | clickSearch =>
    simp only [stepEvent] at hstep
    by_cases hG : w.app.isLoading || jsTrim w.app.query = ""
    · simp [hG] at hstep
    · rw [if_neg hG, Option.some.injEq] at hstep
      subst hstep
      exact inv_submitSearch w w.app w.app.query rfl rfl rfl (fun h => h) ⟨h1, h2, h3⟩
  | clickSuggestion i =>
    simp only [stepEvent] at hstep
    by_cases hG : w.app.showSuggestions = false
    · simp [hG] at hstep
    · rw [if_neg hG] at hstep
      rcases hi : w.app.suggestions[i]? with _ | suggestion
      · rw [hi] at hstep; simp at hstep
      · rw [hi, Option.some.injEq] at hstep
        subst hstep
        exact inv_submitSearch w _ _ rfl rfl rfl (fun h => by simp at h) ⟨h1, h2, h3⟩
  | selectFiles files =>
    simp only [stepEvent] at hstep
    by_cases hU : w.app.isUploading
    · simp [hU] at hstep
    · rw [if_neg hU] at hstep
      rcases hf : handleFileUpload w.app files with ⟨s', req⟩
      rw [hf] at hstep
      have hs' : s'.isLoading = w.app.isLoading ∧ s'.results = w.app.results ∧
          s'.suggestions = w.app.suggestions ∧ s'.showSuggestions = w.app.showSuggestions := by
        have := congrArg Prod.fst hf
        simp only [handleFileUpload] at this
        split at this <;> rw [← this]  <;> exact ⟨rfl, rfl, rfl, rfl⟩
      obtain ⟨e1, e2, e3, e4⟩ := hs'
      cases req <;> simp only [Option.some.injEq] at hstep <;> subst hstep <;>
        exact ⟨fun h => by rw [e2]; exact h1 (e1 ▸ h),
               fun h => by rw [e3, e4]; exact h2 h,
               fun h => by rw [e2]; exact h3 h⟩
  | researchResponse i resp =>
    simp only [stepEvent] at hstep
    rcases hi : w.pendingResearch[i]? with _ | req
    · rw [hi] at hstep; simp at hstep
    · rw [hi] at hstep
      cases resp with
      | some data =>
        simp only [Option.some.injEq] at hstep
        subst hstep
        exact ⟨fun h => by simp [researchThen] at h,
               fun h => h2 h,
               fun h => by simp at h⟩
      | none =>
        simp only [Option.some.injEq] at hstep
        subst hstep
        exact ⟨fun h => by simp [researchCatch] at h,
               fun h => h2 h,
               fun h => h3 h⟩
  | suggestResponse i resp =>
    simp only [stepEvent] at hstep
    rcases hi : w.pendingSuggest[i]? with _ | q
    · rw [hi] at hstep; simp at hstep
    · rw [hi] at hstep
      cases resp with
      | some data =>
        simp only [Option.some.injEq] at hstep
        subst hstep
        by_cases hds : data.success = true
        · refine ⟨?_, ?_, ?_⟩
          · intro h
            simp only [suggestThen, if_pos hds] at h ⊢
            exact h1 h
          · intro h
            simp [hds] at h
          · intro h
            simp only [suggestThen, if_pos hds]
            exact h3 h
        · refine ⟨?_, ?_, ?_⟩
          · intro h
            simp only [suggestThen, if_neg hds] at h ⊢
            exact h1 h
          · intro h
            simp only [suggestThen, if_neg hds]
            have h' : w.ghostSuggestOk = false ∧ data.success = false := by
              simpa [Bool.not_eq_true] using h
            exact h2 h'.1
          · intro h
            simp only [suggestThen, if_neg hds]
            exact h3 h
      | none =>
        simp only [Option.some.injEq] at hstep
        subst hstep
        exact ⟨h1, h2, h3⟩
  | ingestResponse i resp =>
    simp only [stepEvent] at hstep
    rcases hi : w.pendingUpload[i]? with _ | files
    · rw [hi] at hstep; simp at hstep
    · rw [hi] at hstep
      cases resp with
      | some success =>
        simp only [Option.some.injEq] at hstep
        subst hstep
        cases success <;>
          exact ⟨fun h => h1 (by simpa [ingestThen] using h),
                 fun h => by simpa [ingestThen] using h2 h,
                 fun h => by simpa [ingestThen] using h3 h⟩
      | none =>
        simp only [Option.some.injEq] at hstep
        subst hstep
        exact ⟨fun h => h1 (by simpa [ingestCatch] using h),
               fun h => by simpa [ingestCatch] using h2 h,
               fun h => by simpa [ingestCatch] using h3 h⟩
  | timerFire =>
    simp only [stepEvent] at hstep
    rcases hn : w.pendingTimers with _ | n
    · rw [hn] at hstep; simp at hstep
    · rw [hn] at hstep
      simp only [Option.some.injEq] at hstep
      subst hstep
      exact ⟨h1, fun h => by simpa using h2 h, h3⟩

theorem inv_reachable {w : World} (h : Reachable w) : Inv w := by
  induction h with
  | init => exact inv_initWorld
  | step _ hstep ih => exact inv_step ih hstep

theorem reachable_run :
    ∀ (tr : List Event) (w w' : World), Reachable w → run w tr = some w' → Reachable w' := by
  intro tr
  induction tr with
  | nil =>
    intro w w' hw h
    simp only [run, Option.some.injEq] at h
    exact h ▸ hw
  | cons e es ih =>
    intro w w' hw h
    simp only [run] at h
    rcases hs : stepEvent w e with _ | w1
    · rw [hs] at h; simp at h
    · rw [hs] at h
      exact ih w1 w' (Reachable.step hw hs) h

/-! ## Helper lemmas for the JSON round trip and string shapes -/

theorem sourceFromJson_toJson (s : Source) : sourceFromJson (sourceToJson s) = some s := rfl

theorem mapM_loop_asStr (l : List String) (acc : List String) :
    List.mapM.loop Json.asStr (l.map Json.str) acc = some (acc.reverse ++ l) := by
  induction l generalizing acc with
  | nil => simp [List.mapM.loop]
  | cons a as ih => simp [List.mapM.loop, Json.asStr, ih]

theorem mapM_loop_source (l : List Source) (acc : List Source) :
    List.mapM.loop sourceFromJson (l.map sourceToJson) acc = some (acc.reverse ++ l) := by
  induction l generalizing acc with
  | nil => simp [List.mapM.loop]
  | cons a as ih => simp [List.mapM.loop, sourceFromJson_toJson, ih]

theorem resultFromJson_toJson (r : ResearchResult) :
    resultFromJson (resultToJson r) = some r := by
  obtain ⟨suc, ⟨sum, kf, cs, srcs⟩, et, sf, rs⟩ := r
  simp [resultFromJson, resultToJson, reportFromJson, reportToJson, Json.getField,
    Json.asStr, Json.asRat, Json.asBool, Json.asArr, Json.asInt,
    mapM_loop_asStr, mapM_loop_source]

theorem str_append_assoc (a b c : String) : a ++ b ++ c = a ++ (b ++ c) := by
  cases a with
  | mk la =>
    cases b with
    | mk lb =>
      cases c with
      | mk lc =>
        show String.mk (la ++ lb ++ lc) = String.mk (la ++ (lb ++ lc))
        rw [List.append_assoc]

/-! ## The claims -/

/-- C1: calling `handleSearch` with a query whose trimmed value is
empty is a no-op: the handler returns the state unchanged and issues no
research request, and (at the event level) pressing Enter over a
whitespace-only query leaves the whole world, loading flag included,
unchanged. -/
theorem empty_query_submit_noop :
    (∀ (s : AppState) (q : String), jsTrim q = "" → handleSearch s q = (s, none)) ∧
    (∀ w : World, w.app.isLoading = false → jsTrim w.app.query = "" →
      stepEvent w (.pressEnter false) = some w) := by
  constructor
  · intro s q h
    simp [handleSearch, h]
  · intro w hL hq
    have hhs : handleSearch w.app w.app.query = (w.app, none) := by
      simp [handleSearch, hq]
    simp only [stepEvent]
    rw [if_neg (by simp [hL]), handleKeyPress_enter, hhs]
    rfl

/-- Witness for C1 at the whitespace query `"   "` and at the initial
world (whose query is empty). -/
theorem empty_query_submit_noop_witness :
    handleSearch initialState "   " = (initialState, none) ∧
    stepEvent initWorld (.pressEnter false) = some initWorld := by
  have h := empty_query_submit_noop
  exact ⟨h.1 initialState "   " (by decide), h.2 initWorld rfl (by decide)⟩

/-- C2 (counterexample): a reachable state in which `showSuggestions`
is true although the only `success=true` suggestion response of the
trace carried an empty list, and the most recent suggestion response
was a network failure (see `trC2`) — refuting the claimed invariant
that the flag requires a non-empty sequence from the most recent
response. -/
theorem overlay_true_with_empty_suggestions_cex :
    Reachable wC2 ∧ wC2.app.showSuggestions = true ∧ wC2.app.suggestions = [] :=
  ⟨reachable_run trC2 initWorld wC2 Reachable.init rfl, by decide, by decide⟩

/-- C2 (amended): in every reachable state, `showSuggestions` is true
only if some suggestion fetch response with `success=true` has been
delivered since the last submission (`ghostSuggestOk` is the history
observer recording exactly that). -/
theorem overlay_flag_requires_suggest_success (w : World) (h : Reachable w)
    (hs : w.app.showSuggestions = true) : w.ghostSuggestOk = true := by
  rcases hg : w.ghostSuggestOk
  · have hfalse := ((inv_reachable h).2.1 hg).2
    rw [hfalse] at hs
    exact absurd hs (by simp)
  · rfl

/-- Witness for C2's amended invariant at the reachable world `wC2W`,
where the overlay is shown. -/
theorem overlay_flag_requires_suggest_success_witness : wC2W.ghostSuggestOk = true :=
  overlay_flag_requires_suggest_success wC2W
    (reachable_run trC2W initWorld wC2W Reachable.init rfl) rfl

/-- C3: in every reachable state exactly one of the loading indicator,
the results panel and the welcome panel is rendered, and the rendered
one is the one selected by the priority order: `isLoading` first, then
`results != null`, then the welcome fallback. -/
theorem one_panel_shown (w : World) (h : Reachable w) :
    (loadingShown w.app = true ∨ resultsShown w.app = true ∨ welcomeShown w.app = true) ∧
    ¬(loadingShown w.app = true ∧ resultsShown w.app = true) ∧
    ¬(loadingShown w.app = true ∧ welcomeShown w.app = true) ∧
    ¬(resultsShown w.app = true ∧ welcomeShown w.app = true) ∧
    (loadingShown w.app = true ↔ panelShown w.app = Panel.loading) ∧
    (resultsShown w.app = true ↔ panelShown w.app = Panel.results) ∧
    (welcomeShown w.app = true ↔ panelShown w.app = Panel.welcome) := by
  have h1 := (inv_reachable h).1
  cases hL : w.app.isLoading with
  | true =>
    have hR := h1 hL
    simp [loadingShown, resultsShown, welcomeShown, panelShown, hL, hR]
  | false =>
    cases hR : w.app.results with
    | none => simp [loadingShown, resultsShown, welcomeShown, panelShown, hL, hR]
    | some r => simp [loadingShown, resultsShown, welcomeShown, panelShown, hL, hR]

/-- Witness for C3 at the initial world: the welcome panel is the one
shown. -/
theorem one_panel_shown_witness :
    welcomeShown initWorld.app = true ∧ panelShown initWorld.app = Panel.welcome := by
  have h := one_panel_shown initWorld Reachable.init
  exact ⟨by decide, h.2.2.2.2.2.2.mp (by decide)⟩

/-- C4 (counterexample): along `trC4` a suggestion request issued
before submission resolves during loading; after the research request
then completes successfully, `results` holds the response and
`isLoading` is false, but the suggestion list is non-empty and the
overlay flag is set — refuting the claim that after every successful
completion the suggestions are empty and the overlay hidden. -/
theorem stale_suggestions_survive_research_cex :
    Reachable wC4 ∧ wC4.app.results = some exResult ∧ wC4.app.isLoading = false ∧
    wC4.app.showSuggestions = true ∧ wC4.app.suggestions = [exItem] :=
  ⟨reachable_run trC4 initWorld wC4 Reachable.init rfl, by decide, by decide, by decide,
    by decide⟩

/-- C4 (amended): when a research request completes successfully,
`results` equals exactly the delivered response and `isLoading` is
false; and unless a `success=true` suggestion response arrived after
the most recent submission (`ghostSuggestOk`), the suggestion list is
empty and the overlay hidden. -/
theorem research_success_state (w : World) (i : Nat) (data : ResearchResult) (w' : World)
    (h : Reachable w)
    (hstep : stepEvent w (.researchResponse i (some data)) = some w') :
    w'.app.results = some data ∧ w'.app.isLoading = false ∧
    (w'.ghostSuggestOk = false → w'.app.suggestions = [] ∧ w'.app.showSuggestions = false) := by
  simp only [stepEvent] at hstep
  rcases hi : w.pendingResearch[i]? with _ | req
  · rw [hi] at hstep; simp at hstep
  · rw [hi] at hstep
    simp only [Option.some.injEq] at hstep
    subst hstep
    exact ⟨rfl, rfl, fun hg => (inv_reachable h).2.1 hg⟩

/-- Witness for C4's amended statement: a plain submission with no
interfering suggestion traffic, completing successfully. -/
theorem research_success_state_witness :
    wSubmitOk.app.results = some exResult ∧ wSubmitOk.app.isLoading = false ∧
    wSubmitOk.app.suggestions = [] ∧ wSubmitOk.app.showSuggestions = false := by
  have h := research_success_state wSubmit 0 exResult wSubmitOk
    (reachable_run trSubmit initWorld wSubmit Reachable.init rfl) rfl
  exact ⟨h.1, h.2.1, (h.2.2 rfl).1, (h.2.2 rfl).2⟩

/-- C5 (counterexample): along `trC5` two research requests overlap
(the second submitted by clicking a stale suggestion while loading);
the earlier one resolves, the later one fails.  The failure raises the
blocking notice and clears `isLoading`, but `results` is not null: the
earlier response is retained — refuting the claim that after every
failure `results` is null. -/
theorem failed_research_keeps_prior_result_cex :
    Reachable wC5 ∧ wC5.alerts = [researchErrMsg] ∧ wC5.app.isLoading = false ∧
    wC5.app.results = some exResult :=
  ⟨reachable_run trC5 initWorld wC5 Reachable.init rfl, by decide, by decide, by decide⟩

/-- C5 (amended): when a research request fails, the blocking notice is
raised and `isLoading` is cleared; `results` is left untouched, and it
is null unless the successful response of an overlapping research
request arrived after the most recent submission (`ghostResearchOk`). -/
theorem research_failure_state (w : World) (i : Nat) (w' : World)
    (h : Reachable w)
    (hstep : stepEvent w (.researchResponse i none) = some w') :
    w'.alerts = researchErrMsg :: w.alerts ∧ w'.app.isLoading = false ∧
    w'.app.results = w.app.results ∧
    (w'.ghostResearchOk = false → w'.app.results = none) := by
  simp only [stepEvent] at hstep
  rcases hi : w.pendingResearch[i]? with _ | req
  · rw [hi] at hstep; simp at hstep
  · rw [hi] at hstep
    simp only [Option.some.injEq] at hstep
    subst hstep
    exact ⟨rfl, rfl, rfl, fun hg => (inv_reachable h).2.2 hg⟩

/-- Witness for C5's amended statement: a plain submission whose single
request fails. -/
theorem research_failure_state_witness :
    wSubmitErr.alerts = [researchErrMsg] ∧ wSubmitErr.app.isLoading = false ∧
    wSubmitErr.app.results = none := by
  have h := research_failure_state wSubmit 0 wSubmitErr
    (reachable_run trSubmit initWorld wSubmit Reachable.init rfl) rfl
  exact ⟨h.1, h.2.1, h.2.2.2 rfl⟩

/-- C6: a keystroke that updates the query to a string of length less
than 3 changes the query text and nothing else: no suggestion request
is issued (the pending list is unchanged) and the held suggestion list
and `showSuggestions` flag are untouched. -/
theorem short_query_no_suggest_fetch (w : World) (value : String)
    (hL : w.app.isLoading = false) (hlen : value.length < 3) :
    stepEvent w (.queryChange value) =
      some { w with app := { w.app with query := value } } := by
  have hq : handleQueryChange w.app value = ({ w.app with query := value }, none) := by
    simp [handleQueryChange, getSuggestions, hlen]
  simp only [stepEvent]
  rw [if_neg (by simp [hL]), hq]

/-- Witness for C6 at the two-character query `"ab"`. -/
theorem short_query_no_suggest_fetch_witness :
    stepEvent initWorld (.queryChange "ab") =
      some { initWorld with app := { initialState with query := "ab" } } :=
  short_query_no_suggest_fetch initWorld "ab" rfl (by decide)

/-- C7: parsing the content exported with `format='json'` yields the
original `ResearchResult`, field for field (`JSON.stringify` and
`JSON.parse` are modelled at the JSON-value level by `resultToJson` and
`resultFromJson`). -/
theorem json_export_roundtrip (r : ResearchResult) (j : Json)
    (h : exportContent .json r = .jsonText j) :
    resultFromJson j = some r := by
  simp only [exportContent] at h
  injection h with h'
  exact h' ▸ resultFromJson_toJson r

/-- Witness for C7 at the sample result `exResult`. -/
theorem json_export_roundtrip_witness :
    resultFromJson (resultToJson exResult) = some exResult :=
  json_export_roundtrip exResult (resultToJson exResult) rfl

/-- C8: the `pdf` export content is identical to the `markdown` export
content; that content starts with `# Research Report`, contains the
summary verbatim, ends with one `- <finding>` bullet per entry of
`key_findings` in original order (the intercalated bullet block), does
not depend on the sources in any way, and exporting with an absent
result triggers no download. -/
theorem markdown_export_shape (r : ResearchResult) :
    exportContent .pdf r = exportContent .markdown r ∧
    exportContent .markdown r = .plainText (markdownText r) ∧
    (∃ t, markdownText r = "# Research Report" ++ t) ∧
    (∃ p t, markdownText r = p ++ r.research_report.summary ++ t) ∧
    (∃ p, markdownText r =
      p ++ String.intercalate "\n"
        (r.research_report.key_findings.map (fun f => "- " ++ f))) ∧
    (∀ sources, markdownText (setSources r sources) = markdownText r) ∧
    (∀ (s : AppState) (format : ExportFormat), s.results = none →
      exportReport s format = none) := by
  refine ⟨rfl, rfl, ?_, ?_, ?_, fun _ => rfl, ?_⟩
  · refine ⟨"\n\n" ++ (r.research_report.summary ++ ("\n\n## Key Findings\n" ++
      String.intercalate "\n" (r.research_report.key_findings.map (fun f => "- " ++ f)))), ?_⟩
    simp only [markdownText]
    rw [str_append_assoc, str_append_assoc,
      show ("# Research Report\n\n" : String) = "# Research Report" ++ "\n\n" from rfl,
      str_append_assoc]
  · refine ⟨"# Research Report\n\n", "\n\n## Key Findings\n" ++
      String.intercalate "\n" (r.research_report.key_findings.map (fun f => "- " ++ f)), ?_⟩
    simp only [markdownText]
    rw [str_append_assoc]
  · exact ⟨"# Research Report\n\n" ++ r.research_report.summary ++ "\n\n## Key Findings\n",
      rfl⟩
  · intro s format hres
    simp [exportReport, hres]

/-- Witness for C8: equality of the two non-JSON formats at the sample
result, and the silent no-op on the initial (result-less) state. -/
theorem markdown_export_shape_witness :
    exportContent .pdf exResult = exportContent .markdown exResult ∧
    exportReport initialState .markdown = none := by
  have h := markdown_export_shape exResult
  exact ⟨h.1, h.2.2.2.2.2.2 initialState .markdown rfl⟩

/-- C9 (counterexample): along `trC9` the backend returns a suggestion
whose `suggested_query` is the single space `" "`; clicking it sets the
query to that text and hides the overlay, but no research request is
ever issued (`pendingResearch` stays empty) — refuting the claim that a
research request is always issued for the clicked suggestion. -/
theorem whitespace_suggestion_click_cex :
    Reachable wC9 ∧ wC9.app.query = " " ∧ wC9.app.showSuggestions = false ∧
    wC9.pendingResearch = [] :=
  ⟨reachable_run trC9 initWorld wC9 Reachable.init rfl, by decide, by decide, by decide⟩

/-- C9 (amended): clicking suggestion `i` sets the query text to that
suggestion's `suggested_query`, hides the overlay, and triggers no
suggestion fetch; a research request for exactly that text is issued
when its trimmed value is non-empty, and no request is issued
otherwise. -/
theorem suggestion_click_state (w : World) (i : Nat) (item : SuggestionItem) (w' : World)
    (hi : w.app.suggestions[i]? = some item)
    (hstep : stepEvent w (.clickSuggestion i) = some w') :
    w'.app.query = item.suggested_query ∧
    w'.app.showSuggestions = false ∧
    w'.pendingSuggest = w.pendingSuggest ∧
    (jsTrim item.suggested_query ≠ "" →
      w'.pendingResearch =
        w.pendingResearch ++ [{ query := item.suggested_query, max_sources := 10 }]) ∧
    (jsTrim item.suggested_query = "" → w'.pendingResearch = w.pendingResearch) := by
  simp only [stepEvent] at hstep
  by_cases hG : w.app.showSuggestions = false
  · simp [hG] at hstep
  · rw [if_neg hG, hi] at hstep
    simp only [Option.some.injEq] at hstep
    subst hstep
    by_cases ht : jsTrim item.suggested_query = ""
    · refine ⟨?_, ?_, ?_, fun hn => absurd ht hn, fun _ => ?_⟩ <;>
        simp [handleSuggestionClick, handleSearch, ht, submitWorld]
    · refine ⟨?_, ?_, ?_, fun _ => ?_, fun hyes => absurd hyes ht⟩ <;>
        simp [handleSuggestionClick, handleSearch, ht, submitWorld]

/-- Witness for C9's amended statement: clicking the sample suggestion
of the reachable world `wC2W` issues a request for exactly its text. -/
theorem suggestion_click_state_witness :
    wC9W.app.query = "better query" ∧ wC9W.app.showSuggestions = false ∧
    wC9W.pendingSuggest = [] ∧
    wC9W.pendingResearch = [{ query := "better query", max_sources := 10 }] := by
  have h := suggestion_click_state wC2W 0 exItem wC9W rfl rfl
  exact ⟨h.1, h.2.1, h.2.2.1.trans (by decide), (h.2.2.2.1 (by decide)).trans (by decide)⟩

/-- C10: uploading an empty file list is a no-op; a non-empty list
issues one ingest request carrying exactly those files; a response with
`success=true` appends exactly those files (by name, in order) to the
accumulated list; a rejected request appends nothing and raises the
blocking notice; and `isUploading` is cleared whenever the request
settles, with success or with failure. -/
theorem upload_lifecycle :
    (∀ s : AppState, handleFileUpload s [] = (s, none)) ∧
    (∀ (s : AppState) (files : List String), files ≠ [] →
      handleFileUpload s files =
        ({ s with isUploading := true, uploadSuccess := false }, some files)) ∧
    (∀ (w : World) (i : Nat) (files : List String) (w' : World),
      w.pendingUpload[i]? = some files →
      stepEvent w (.ingestResponse i (some true)) = some w' →
      w'.app.uploadedFiles = w.app.uploadedFiles ++ files ∧
      w'.app.uploadedFiles.length = w.app.uploadedFiles.length + files.length ∧
      w'.app.isUploading = false ∧ w'.alerts = w.alerts) ∧
    (∀ (w : World) (i : Nat) (files : List String) (w' : World),
      w.pendingUpload[i]? = some files →
      stepEvent w (.ingestResponse i none) = some w' →
      w'.app.uploadedFiles = w.app.uploadedFiles ∧
      w'.app.isUploading = false ∧ w'.alerts = uploadErrMsg :: w.alerts) ∧
    (∀ (w : World) (i : Nat) (files : List String) (w' : World) (success : Bool),
      w.pendingUpload[i]? = some files →
      stepEvent w (.ingestResponse i (some success)) = some w' →
      w'.app.isUploading = false) := by
  refine ⟨fun s => rfl, ?_, ?_, ?_, ?_⟩
  · intro s files hf
    simp [handleFileUpload, hf]
  · intro w i files w' hi hstep
    simp only [stepEvent] at hstep
    rw [hi] at hstep
    simp only [ingestThen, if_pos rfl, Option.some.injEq] at hstep
    subst hstep
    exact ⟨rfl, by simp, rfl, rfl⟩
  · intro w i files w' hi hstep
    simp only [stepEvent] at hstep
    rw [hi] at hstep
    simp only [Option.some.injEq] at hstep
    subst hstep
    exact ⟨rfl, rfl, rfl⟩
  · intro w i files w' success hi hstep
    simp only [stepEvent] at hstep
    rw [hi] at hstep
    cases success <;>
      simp only [ingestThen, Option.some.injEq] at hstep <;>
      subst hstep <;> rfl

/-- Witness for C10: the no-op, the issued request, and both
settlements of a two-file upload. -/
theorem upload_lifecycle_witness :
    handleFileUpload initialState [] = (initialState, none) ∧
    handleFileUpload initialState ["a.txt"] =
      ({ initialState with isUploading := true, uploadSuccess := false }, some ["a.txt"]) ∧
    wUpOk.app.uploadedFiles = ["a.txt", "b.txt"] ∧ wUpOk.app.isUploading = false ∧
    wUpErr.app.uploadedFiles = [] ∧ wUpErr.app.isUploading = false ∧
    wUpErr.alerts = [uploadErrMsg] := by
  have h := upload_lifecycle
  refine ⟨h.1 initialState, h.2.1 initialState ["a.txt"] (by decide), ?_, ?_, ?_, ?_, ?_⟩
  · exact (h.2.2.1 wUp 0 ["a.txt", "b.txt"] wUpOk rfl rfl).1.trans (by decide)
  · exact (h.2.2.1 wUp 0 ["a.txt", "b.txt"] wUpOk rfl rfl).2.2.1
  · exact (h.2.2.2.1 wUp 0 ["a.txt", "b.txt"] wUpErr rfl rfl).1.trans (by decide)
  · exact (h.2.2.2.1 wUp 0 ["a.txt", "b.txt"] wUpErr rfl rfl).2.1
  · exact (h.2.2.2.1 wUp 0 ["a.txt", "b.txt"] wUpErr rfl rfl).2.2.trans (by decide)

end DeepResearcher
